import Mathlib

/-!
Verification of the KDL QR label tool (catalog loader, favorites ranker,
QR payload composer, label layout) against its natural-language
specification.  The Python source is shallowly embedded: pure list and
string computations become Lean functions, the GUI state mutation of
`generate_qr` becomes explicit state passing on the usage-counter
mapping, and the filesystem probing of `load_kdl_data` is abstracted
over a list of candidate file states.
-/

/-! ### Code-point string order

Python compares strings lexicographically by code points.  `pyCharListLt`
is that comparison on the underlying character lists, executable by the
kernel; it is bridged below to the `≤` order on `String`. -/

def pyCharListLt : List Char → List Char → Bool
  | [], [] => false
  | [], _ :: _ => true
  | _ :: _, [] => false
  | a :: as, b :: bs => if a < b then true else if b < a then false else pyCharListLt as bs

def pyStrLt (a b : String) : Bool := pyCharListLt a.data b.data

def pyStrLe (a b : String) : Bool := !(pyStrLt b a)

theorem pyCharListLt_iff : ∀ l₁ l₂ : List Char, pyCharListLt l₁ l₂ = true ↔ List.Lex (· < ·) l₁ l₂ := by
  intro l₁
  induction l₁ with
  | nil =>
    intro l₂
    cases l₂ with
    | nil =>
      simp only [pyCharListLt, Bool.false_eq_true, false_iff]
      rintro ⟨⟩
    | cons b bs =>
      simp only [pyCharListLt, true_iff]
      exact List.Lex.nil
  | cons a as ih =>
    intro l₂
    cases l₂ with
    | nil =>
      simp only [pyCharListLt, Bool.false_eq_true, false_iff]
      rintro ⟨⟩
    | cons b bs =>
      simp only [pyCharListLt]
      split_ifs with h1 h2
      · simp only [true_iff]
        exact List.Lex.rel h1
      · simp only [Bool.false_eq_true, false_iff]
        intro hlex
        cases hlex with
        | rel h => exact h1 h
        | cons h => exact absurd h2 (lt_irrefl a)
      · have hab : a = b := le_antisymm (not_lt.mp h2) (not_lt.mp h1)
        subst hab
        rw [ih bs]
        constructor
        · exact fun h => List.Lex.cons h
        · intro hlex
          cases hlex with
          | rel h => exact absurd h h1
          | cons h => exact h

theorem pyStrLt_iff (a b : String) : pyStrLt a b = true ↔ a < b := by
  rw [String.lt_iff_toList_lt]
  exact pyCharListLt_iff a.data b.data

theorem pyStrLe_iff (a b : String) : pyStrLe a b = true ↔ a ≤ b := by
  rw [pyStrLe, Bool.not_eq_true', ← not_lt (α := String)]
  rw [← pyStrLt_iff b a]
  simp

/-- Model of Python `str.strip()`: drop whitespace from both ends. -/
def pyStrip (s : String) : String :=
  String.mk (((s.data.dropWhile Char.isWhitespace).reverse.dropWhile Char.isWhitespace).reverse)

/-! ### Data model -/

/-- A catalog entry: one JSON object with `code` and `display` fields. -/
structure Entry where
  code : String
  display : String
deriving DecidableEq

/-- The usage-counter mapping (Python dict persisted as `kdl_usage.json`),
as an association list with the dict's insertion order. -/
abbrev Usage := List (String × Nat)

/-- Model of Python `usage_data.get(code, 0)`. -/
def usageGet : Usage → String → Nat
  | [], _ => 0
  | (k, v) :: rest, c => if k = c then v else usageGet rest c

/-- Model of Python `usage_data[code] = n`: overwrite in place if the key
exists, else append (dict insertion-order semantics). -/
def usageSet : Usage → String → Nat → Usage
  | [], c, n => [(c, n)]
  | (k, v) :: rest, c, n => if k = c then (c, n) :: rest else (k, v) :: usageSet rest c n

/-- `FALLBACK_KDL_DATA` from the source: the built-in catalog of ten
entries used when no external `kdl_embedded.json` is accepted. -/
def FALLBACK_KDL_DATA : List Entry :=
  [⟨"A01", "Cholera durch Vibrio cholerae 01, Biovar cholerae"⟩,
   ⟨"A02", "Salmonellenenteritis"⟩,
   ⟨"B20", "HIV-Krankheit, durch HIV-1-Virus"⟩,
   ⟨"C34", "Bösartige Neubildung: Bronchien und Lunge"⟩,
   ⟨"E11", "Nicht insulinabhängiger Diabetes mellitus"⟩,
   ⟨"I10", "Essentielle (primäre) Hypertonie"⟩,
   ⟨"J45", "Asthma bronchiale"⟩,
   ⟨"K35", "Akute Appendizitis"⟩,
   ⟨"M54", "Rückenschmerzen"⟩,
   ⟨"N39", "Sonstige Krankheiten der Harnorgane"⟩]

/-! ### Favorites ranker (`update_dropdown`)

The sorts are Python's stable `sorted`; `List.insertionSort` is stable,
and the comparison relations mirror the `key` functions of the source:
`favLe` is the lexicographic order on `(-count, code)`, `displayLe`
compares entries by display string. -/

def displayLe (a b : Entry) : Prop := a.display ≤ b.display

instance : DecidableRel displayLe :=
  fun a b => decidable_of_iff (pyStrLe a.display b.display = true) (pyStrLe_iff _ _)

instance : IsTotal Entry displayLe := ⟨fun a b => le_total a.display b.display⟩

instance : IsTrans Entry displayLe := ⟨fun _ _ _ h1 h2 => le_trans h1 h2⟩

def favLe (a b : String × Nat) : Prop := b.2 < a.2 ∨ (a.2 = b.2 ∧ a.1 ≤ b.1)

def favLeB (a b : String × Nat) : Bool := Nat.blt b.2 a.2 || (Nat.beq a.2 b.2 && pyStrLe a.1 b.1)

instance : DecidableRel favLe :=
  fun a b => decidable_of_iff (favLeB a b = true) (by
    simp only [favLeB, Bool.or_eq_true, Bool.and_eq_true, Nat.blt_eq, Nat.beq_eq,
      pyStrLe_iff, favLe])

/-- Keep the first occurrence of every key (Python dict-comprehension
semantics for `valid_usage`; duplicate catalog codes map to the same
count, so keeping the first occurrence is the dict result). -/
def dedup_first (seen : List String) : List (String × Nat) → List (String × Nat)
  | [] => []
  | (c, n) :: rest =>
    if c ∈ seen then dedup_first seen rest
    else (c, n) :: dedup_first (c :: seen) rest

/-- `valid_usage = {code: usage_data.get(code, 0) for code in (e["code"] for e in KDL_DATA)}`. -/
def valid_usage (catalog : List Entry) (usage : Usage) : List (String × Nat) :=
  dedup_first [] (catalog.map (fun e => (e.code, usageGet usage e.code)))

/-- `favorites_sorted = sorted(valid_usage.items(), key=lambda kv: (-kv[1], kv[0]))[:5]`. -/
def favorites_sorted (catalog : List Entry) (usage : Usage) : List (String × Nat) :=
  (List.insertionSort favLe (valid_usage catalog usage)).take 5

/-- `favorite_codes = [code for code, _ in favorites_sorted if usage_data.get(code, 0) > 0]`. -/
def favorite_codes (catalog : List Entry) (usage : Usage) : List String :=
  ((favorites_sorted catalog usage).filter (fun p => decide (0 < usageGet usage p.1))).map Prod.fst

/-- `favorite_displays = [e["display"] for e in KDL_DATA if e["code"] in favorite_codes]`.
Note: this iterates the catalog, so the favorites appear in catalog
order, not in the ranked order of `favorites_sorted`. -/
def favorite_displays (catalog : List Entry) (usage : Usage) : List String :=
  (catalog.filter (fun e => decide (e.code ∈ favorite_codes catalog usage))).map Entry.display

/-- `remaining_displays = [e["display"] for e in sorted(KDL_DATA, key=...) if e["display"] not in favorite_displays]`. -/
def remaining_displays (catalog : List Entry) (usage : Usage) : List String :=
  ((List.insertionSort displayLe catalog).filter
    (fun e => decide (e.display ∉ favorite_displays catalog usage))).map Entry.display

/-- The dropdown value list built by `update_dropdown`: favorites, then
the `"---"` separator (only if there are favorites), then the remainder. -/
def update_dropdown (catalog : List Entry) (usage : Usage) : List String :=
  (if (favorite_displays catalog usage).isEmpty then []
   else favorite_displays catalog usage ++ ["---"]) ++ remaining_displays catalog usage

/-! ### QR composer (`generate_qr`) -/

/-- `get_kdl_code`: resolve a display string to its code by scanning the
catalog; `None` when no entry matches. -/
def get_kdl_code : List Entry → String → Option String
  | [], _ => none
  | e :: rest, d => if e.display = d then some e.code else get_kdl_code rest d

/-- The QR payload f-string of the source (braces written as `\x7b`/`\x7d`). -/
def qr_payload (fallnummer code : String) : String :=
  "\x7bsys:GUN_CID,cid:" ++ fallnummer ++ ",formid:" ++ code ++ "\x7d"

/-- `generate_qr` as a state transition on the usage mapping: `none`
models the error message boxes (operation aborted, nothing saved);
`some (payload, usage')` models a successful composition, where
`usage'` is the mapping that is immediately persisted by `save_usage`. -/
def generate_qr (catalog : List Entry) (usage : Usage) (fallnummer_raw display_raw : String) :
    Option (String × Usage) :=
  if pyStrip display_raw = "" ∨ pyStrip display_raw = "---" then none
  else
    match get_kdl_code catalog (pyStrip display_raw) with
    | none => none
    | some code =>
      if pyStrip fallnummer_raw = "" ∨ code = "" then none
      else some (qr_payload (pyStrip fallnummer_raw) code,
                 usageSet usage code (usageGet usage code + 1))

/-- `reset_favorites`: clear the usage mapping; the returned (empty)
mapping is what `save_usage` persists. -/
def reset_favorites (_usage : Usage) : Usage := []

/-! ### Label layout (`print_qr`)

Python `int()` on the (positive) products truncates, i.e. takes the
floor; the float arithmetic is modelled exactly over `ℚ` (all constants
are decimal literals, and no value below lies near an integer boundary
where the double-precision error could flip the floor). -/

def CM_TO_IN : ℚ := 0.3937007874

/-- `qr_side_px = int(2.5 * CM_TO_IN * min(dpi_x, dpi_y))` (both versions). -/
def qr_side_px (dpi_x dpi_y : ℕ) : ℤ :=
  ⌊(2.5 : ℚ) * CM_TO_IN * ((min dpi_x dpi_y : ℕ) : ℚ)⌋

/-- `label_width_px = int(4 * CM_TO_IN * dpi_x)` (both versions). -/
def label_width_px (dpi_x : ℕ) : ℤ :=
  ⌊(4 : ℚ) * CM_TO_IN * (dpi_x : ℚ)⌋

/-- Modelled from the spec: `qrSidePixels = round(2.5 cm × min(dpiX, dpiY)
in pixels-per-cm)` — the rounded variant the specification prescribes,
for comparison against the truncating source. -/
def qr_side_px_rounded (dpi_x dpi_y : ℕ) : ℤ :=
  round ((2.5 : ℚ) * CM_TO_IN * ((min dpi_x dpi_y : ℕ) : ℚ))

/-- Modelled from the spec: `labelWidthPixels = round(4 cm × dpiX in
pixels-per-cm)` — the rounded variant the specification prescribes. -/
def label_width_px_rounded (dpi_x : ℕ) : ℤ :=
  round ((4 : ℚ) * CM_TO_IN * (dpi_x : ℚ))

/-- The pixel geometry of the printed label: QR side, full image width
and height, text anchor points, and the timestamp anchor. -/
structure LabelLayout where
  qrSide : ℤ
  labelWidth : ℤ
  labelHeight : ℤ
  textX : ℤ
  line1Y : ℤ
  line2Y : ℤ
  dateX : ℤ
  dateY : ℤ
deriving DecidableEq

/-- The layout computed by `print_qr` in V110: DPI-scaled offsets
(`0.4 cm` bottom margin, `0.2 cm` text gap, second line at `0.7 cm`). -/
def layout_V110 (dpi_x dpi_y : ℕ) : LabelLayout :=
  { qrSide := qr_side_px dpi_x dpi_y
    labelWidth := label_width_px dpi_x
    labelHeight := qr_side_px dpi_x dpi_y + ⌊(0.4 : ℚ) * CM_TO_IN * (dpi_y : ℚ)⌋
    textX := qr_side_px dpi_x dpi_y + ⌊(0.2 : ℚ) * CM_TO_IN * (dpi_x : ℚ)⌋
    line1Y := 0
    line2Y := ⌊(0.7 : ℚ) * CM_TO_IN * (dpi_y : ℚ)⌋
    dateX := 0
    dateY := qr_side_px dpi_x dpi_y }

/-- The layout computed by `print_qr` in V200: fixed pixel offsets
(20 px bottom margin, 10 px text gap, second line at 20 px). -/
def layout_V200 (dpi_x dpi_y : ℕ) : LabelLayout :=
  { qrSide := qr_side_px dpi_x dpi_y
    labelWidth := label_width_px dpi_x
    labelHeight := qr_side_px dpi_x dpi_y + 20
    textX := qr_side_px dpi_x dpi_y + 10
    line1Y := 0
    line2Y := 20
    dateX := 0
    dateY := qr_side_px dpi_x dpi_y }

/-! ### Catalog loader (`load_kdl_data`)

The filesystem is abstracted: each candidate path is a `Candidate`
carrying whether the file exists and, if reading and JSON parsing
succeed, the parsed value (`parsed = none` models an exception while
opening, reading or parsing, which the `try`/`except` turns into
probing the next candidate). -/

/-- A JSON value, as far as the validity check can observe it. -/
inductive Json where
  | str (s : String)
  | num (n : Int)
  | bool (b : Bool)
  | null
  | arr (xs : List Json)
  | obj (fields : List (String × Json))

/-- Python `k in e` for a JSON value `e`: key lookup on a dict,
substring test on a string, element equality on a list, and a
`TypeError` (`none`) on numbers, booleans and `null`.  For a list the
only elements that can equal the string `k` are strings. -/
def pyContains (e : Json) (k : String) : Option Bool :=
  match e with
  | .obj fields => some (fields.any (fun f => f.1 == k))
  | .str s => some (decide (k.data <:+: s.data))
  | .arr xs => some (xs.any (fun j => match j with | .str s => s == k | _ => false))
  | _ => none

/-- Python `"code" in e and "display" in e` with short-circuiting and
exception propagation. -/
def entry_has_fields (e : Json) : Option Bool :=
  match pyContains e "code" with
  | none => none
  | some false => some false
  | some true => pyContains e "display"

/-- Python `all("code" in e and "display" in e for e in xs)`. -/
def all_entries_have_fields : List Json → Option Bool
  | [] => some true
  | e :: rest =>
    match entry_has_fields e with
    | none => none
    | some false => some false
    | some true => all_entries_have_fields rest

/-- The V200 validity check `isinstance(data, list) and all(...)`;
`none` models a `TypeError` raised inside the check. -/
def kdl_shape_ok : Json → Option Bool
  | .arr xs => all_entries_have_fields xs
  | _ => some false

/-- One candidate file location for `kdl_embedded.json`. -/
structure Candidate where
  pathExists : Bool
  parsed : Option Json

/-- What the loop body does with one candidate: skip it unless the path
exists, the file reads and parses, and the shape check returns `True`
without raising. -/
def try_candidate (c : Candidate) : Option Json :=
  if c.pathExists then
    match c.parsed with
    | none => none
    | some data =>
      match kdl_shape_ok data with
      | some true => some data
      | _ => none
  else none

/-- The probing loop of `load_kdl_data`: first accepted candidate wins. -/
def load_kdl_data_from : List Candidate → Option Json
  | [] => none
  | c :: rest =>
    match try_candidate c with
    | some data => some data
    | none => load_kdl_data_from rest

/-- `load_kdl_data`: the accepted JSON value, or the built-in fallback
catalog when every candidate is rejected. -/
def load_kdl_data (cands : List Candidate) : Json ⊕ List Entry :=
  match load_kdl_data_from cands with
  | some data => Sum.inl data
  | none => Sum.inr FALLBACK_KDL_DATA

/-- The candidate order built by `load_kdl_data`: next to the executable
(only when frozen), then the current working directory, then next to the
source file. -/
def candidate_paths (frozen : Bool) (exe_cand cwd_cand src_cand : Candidate) : List Candidate :=
  (if frozen then [exe_cand] else []) ++ [cwd_cand, src_cand]

/-! ### Helper lemmas -/

theorem usageGet_usageSet_self (u : Usage) (c : String) (n : Nat) :
    usageGet (usageSet u c n) c = n := by
  induction u with
  | nil => simp [usageSet, usageGet]
  | cons kv rest ih =>
    obtain ⟨k, v⟩ := kv
    by_cases h : k = c
    · subst h
      simp [usageSet, usageGet]
    · simp [usageSet, usageGet, h, ih]

theorem usageGet_usageSet_ne (u : Usage) (c c' : String) (n : Nat) (h : c' ≠ c) :
    usageGet (usageSet u c n) c' = usageGet u c' := by
  induction u with
  | nil =>
    simp only [usageSet, usageGet]
    rw [if_neg (fun hh => h hh.symm)]
  | cons kv rest ih =>
    obtain ⟨k, v⟩ := kv
    by_cases hk : k = c
    · subst hk
      simp only [usageSet, if_pos rfl, usageGet]
      rw [if_neg (fun hh => h hh.symm), if_neg (fun hh => h hh.symm)]
    · simp only [usageSet, if_neg hk, usageGet, ih]

theorem generate_qr_some_inv {catalog : List Entry} {u : Usage} {f d p : String} {u' : Usage}
    (h : generate_qr catalog u f d = some (p, u')) :
    ∃ code, get_kdl_code catalog (pyStrip d) = some code ∧
      p = qr_payload (pyStrip f) code ∧
      u' = usageSet u code (usageGet u code + 1) := by
  unfold generate_qr at h
  by_cases h1 : pyStrip d = "" ∨ pyStrip d = "---"
  · rw [if_pos h1] at h
    exact Option.noConfusion h
  · rw [if_neg h1] at h
    cases hg : get_kdl_code catalog (pyStrip d) with
    | none =>
      simp only [hg] at h
      exact Option.noConfusion h
    | some code =>
      simp only [hg] at h
      by_cases h2 : pyStrip f = "" ∨ code = ""
      · rw [if_pos h2] at h
        exact Option.noConfusion h
      · rw [if_neg h2] at h
        simp only [Option.some.injEq, Prod.mk.injEq] at h
        exact ⟨code, rfl, h.1.symm, h.2.symm⟩

theorem mem_dedup_first {p : String × Nat} : ∀ (seen : List String) (l : List (String × Nat)),
    p ∈ dedup_first seen l → p ∈ l := by
  intro seen l
  induction l generalizing seen with
  | nil => simp [dedup_first]
  | cons q rest ih =>
    obtain ⟨c, n⟩ := q
    simp only [dedup_first]
    split_ifs with h
    · intro hm
      exact List.mem_cons_of_mem _ (ih seen hm)
    · intro hm
      rcases List.mem_cons.mp hm with h1 | h1
      · subst h1
        exact List.mem_cons_self _ _
      · exact List.mem_cons_of_mem _ (ih _ h1)

theorem mem_valid_usage {catalog : List Entry} {usage : Usage} {p : String × Nat}
    (h : p ∈ valid_usage catalog usage) : ∃ e ∈ catalog, p.1 = e.code := by
  have h2 := mem_dedup_first _ _ h
  obtain ⟨e, he, heq⟩ := List.mem_map.mp h2
  exact ⟨e, he, by rw [← heq]⟩

theorem mem_favorites_sorted {catalog : List Entry} {usage : Usage} {p : String × Nat}
    (h : p ∈ favorites_sorted catalog usage) : ∃ e ∈ catalog, p.1 = e.code := by
  have h1 : p ∈ List.insertionSort favLe (valid_usage catalog usage) := List.take_subset _ _ h
  exact mem_valid_usage ((List.mem_insertionSort favLe).mp h1)

theorem mem_favorite_displays {catalog : List Entry} {usage : Usage} {x : String}
    (h : x ∈ favorite_displays catalog usage) : x ∈ catalog.map Entry.display := by
  obtain ⟨e, he, heq⟩ := List.mem_map.mp h
  exact List.mem_map.mpr ⟨e, (List.mem_filter.mp he).1, heq⟩

theorem mem_remaining_displays {catalog : List Entry} {usage : Usage} {x : String} :
    x ∈ remaining_displays catalog usage ↔
      x ∈ catalog.map Entry.display ∧ x ∉ favorite_displays catalog usage := by
  constructor
  · intro h
    obtain ⟨e, he, heq⟩ := List.mem_map.mp h
    obtain ⟨hmem, hpred⟩ := List.mem_filter.mp he
    refine ⟨List.mem_map.mpr ⟨e, (List.mem_insertionSort _).mp hmem, heq⟩, ?_⟩
    subst heq
    exact of_decide_eq_true hpred
  · rintro ⟨hmem, hnot⟩
    obtain ⟨e, he, heq⟩ := List.mem_map.mp hmem
    refine List.mem_map.mpr ⟨e, List.mem_filter.mpr ⟨(List.mem_insertionSort _).mpr he, ?_⟩, heq⟩
    subst heq
    exact decide_eq_true hnot

theorem sorted_remaining_displays (catalog : List Entry) (usage : Usage) :
    List.Sorted (· ≤ ·) (remaining_displays catalog usage) := by
  have h1 : List.Sorted displayLe (List.insertionSort displayLe catalog) :=
    List.sorted_insertionSort displayLe catalog
  have h2 := h1.filter (fun e => decide (e.display ∉ favorite_displays catalog usage))
  exact List.Pairwise.map _ (fun a b hab => hab) h2

theorem perm_remaining_displays (catalog : List Entry) (usage : Usage) :
    List.Perm (remaining_displays catalog usage)
      ((catalog.filter (fun e => decide (e.display ∉ favorite_displays catalog usage))).map
        Entry.display) :=
  ((List.perm_insertionSort displayLe catalog).filter _).map _

theorem favorite_codes_eq_nil {catalog : List Entry} {usage : Usage}
    (h : ∀ e ∈ catalog, usageGet usage e.code = 0) :
    favorite_codes catalog usage = [] := by
  unfold favorite_codes
  rw [List.map_eq_nil_iff, List.filter_eq_nil_iff]
  intro p hp
  obtain ⟨e, he, heq⟩ := mem_favorites_sorted hp
  simp [heq, h e he]

theorem favorite_displays_eq_nil {catalog : List Entry} {usage : Usage}
    (h : favorite_codes catalog usage = []) :
    favorite_displays catalog usage = [] := by
  unfold favorite_displays
  rw [h]
  simp

theorem update_dropdown_all_zero {catalog : List Entry} {usage : Usage}
    (h : ∀ e ∈ catalog, usageGet usage e.code = 0) :
    update_dropdown catalog usage = (List.insertionSort displayLe catalog).map Entry.display := by
  have h1 := favorite_displays_eq_nil (favorite_codes_eq_nil h)
  unfold update_dropdown remaining_displays
  rw [h1]
  simp only [List.isEmpty_nil, if_true, List.nil_append]
  congr 1
  apply List.filter_eq_self.mpr
  intro e _
  simp

theorem count_sep_update_dropdown (catalog : List Entry) (usage : Usage)
    (hs : "---" ∉ catalog.map Entry.display) :
    List.count "---" (update_dropdown catalog usage) ≤ 1 := by
  have hfd : List.count "---" (favorite_displays catalog usage) = 0 :=
    List.count_eq_zero.mpr (fun hm => hs (mem_favorite_displays hm))
  have hrd : List.count "---" (remaining_displays catalog usage) = 0 :=
    List.count_eq_zero.mpr (fun hm => hs (mem_remaining_displays.mp hm).1)
  unfold update_dropdown
  split_ifs with h
  · simp [hrd]
  · rw [List.count_append, List.count_append, hfd, hrd]
    simp [List.count_cons]

theorem load_kdl_data_from_eq_findSome (l : List Candidate) :
    load_kdl_data_from l = l.findSome? try_candidate := by
  induction l with
  | nil => rfl
  | cons c rest ih =>
    simp only [load_kdl_data_from, List.findSome?_cons]
    cases try_candidate c <;> simp [ih]

theorem floor_round_bounds (q : ℚ) : round q - 1 ≤ ⌊q⌋ ∧ ⌊q⌋ ≤ round q := by
  rw [round_eq]
  constructor
  · have h := Int.floor_le_floor (α := ℚ) (show q + 1/2 ≤ q + 1 by linarith)
    rw [show q + 1 = q + ((1 : ℤ) : ℚ) by norm_num, Int.floor_add_int] at h
    omega
  · exact Int.floor_le_floor (by linarith)

/-! ### Claims -/

/-- C1, counterexample: with the fallback catalog and usage
`C34 ↦ 3, A01 ↦ 1`, `update_dropdown` does not return the list the claim
prescribes (C34 display first): the favorites come out in catalog order,
so the A01 display precedes the C34 display. -/
theorem C1_counterexample :
    update_dropdown FALLBACK_KDL_DATA [("C34", 3), ("A01", 1)] ≠
      ["Bösartige Neubildung: Bronchien und Lunge",
       "Cholera durch Vibrio cholerae 01, Biovar cholerae", "---",
       "Akute Appendizitis", "Asthma bronchiale",
       "Essentielle (primäre) Hypertonie",
       "HIV-Krankheit, durch HIV-1-Virus",
       "Nicht insulinabhängiger Diabetes mellitus",
       "Rückenschmerzen", "Salmonellenenteritis",
       "Sonstige Krankheiten der Harnorgane"] := by
  decide

/-- C1, amended: the favorites portion lists the favorite codes' display
strings in catalog order (a sublist of the catalog displays), not in the
ranked order; in the claimed scenario the A01 display comes first, then
the C34 display, then the separator, then the remaining 8 displays
alphabetically. -/
theorem C1_favorites_catalog_order :
    (∀ (catalog : List Entry) (usage : Usage),
      List.Sublist (favorite_displays catalog usage) (catalog.map Entry.display)) ∧
    update_dropdown FALLBACK_KDL_DATA [("C34", 3), ("A01", 1)] =
      ["Cholera durch Vibrio cholerae 01, Biovar cholerae",
       "Bösartige Neubildung: Bronchien und Lunge", "---",
       "Akute Appendizitis", "Asthma bronchiale",
       "Essentielle (primäre) Hypertonie",
       "HIV-Krankheit, durch HIV-1-Virus",
       "Nicht insulinabhängiger Diabetes mellitus",
       "Rückenschmerzen", "Salmonellenenteritis",
       "Sonstige Krankheiten der Harnorgane"] := by
  constructor
  · intro catalog usage
    exact (List.filter_sublist catalog).map Entry.display
  · decide

/-- C2, counterexample: the source truncates with `int(...)` rather than
rounding, so at 203 DPI (a common label-printer resolution) the computed
QR side is 199 while the claimed `round` formula gives 200; moreover the
V200 label height adds a fixed 20 px, not a 0.4 cm margin at `dpi_y`
(at 300 DPI: 315 versus 342). -/
theorem C2_counterexample :
    qr_side_px 203 203 = 199 ∧
    qr_side_px_rounded 203 203 = 200 ∧
    qr_side_px 203 203 ≠ qr_side_px_rounded 203 203 ∧
    (layout_V200 300 300).labelHeight = 315 ∧
    qr_side_px 300 300 + ⌊(0.4 : ℚ) * CM_TO_IN * ((300 : ℕ) : ℚ)⌋ = 342 := by
  have h1 : qr_side_px 203 203 = 199 := by
    unfold qr_side_px CM_TO_IN
    norm_num [Int.floor_eq_iff]
  have h2 : qr_side_px_rounded 203 203 = 200 := by
    unfold qr_side_px_rounded CM_TO_IN
    rw [round_eq]
    norm_num [Int.floor_eq_iff]
  have h3 : qr_side_px 300 300 = 295 := by
    unfold qr_side_px CM_TO_IN
    norm_num [Int.floor_eq_iff]
  have h4 : (⌊(0.4 : ℚ) * CM_TO_IN * ((300 : ℕ) : ℚ)⌋ : ℤ) = 47 := by
    unfold CM_TO_IN
    norm_num [Int.floor_eq_iff]
  refine ⟨h1, h2, by rw [h1, h2]; decide, ?_, by rw [h3, h4]; decide⟩
  show qr_side_px 300 300 + 20 = 315
  rw [h3]
  decide

/-- C2, amended: both versions truncate: `qrSidePixels = ⌊2.5 cm ×
min(dpiX, dpiY)⌋` and `labelWidthPixels = ⌊4 cm × dpiX⌋`, each within 1
below the spec's rounded value; V200's label height adds a fixed 20 px
(the 0.4 cm margin is V110's); at 300 DPI the claimed values 295 and 472
do hold. -/
theorem C2_layout_truncation :
    ∀ dpi_x dpi_y : ℕ,
      qr_side_px_rounded dpi_x dpi_y - 1 ≤ qr_side_px dpi_x dpi_y ∧
      qr_side_px dpi_x dpi_y ≤ qr_side_px_rounded dpi_x dpi_y ∧
      label_width_px_rounded dpi_x - 1 ≤ label_width_px dpi_x ∧
      label_width_px dpi_x ≤ label_width_px_rounded dpi_x ∧
      (layout_V200 dpi_x dpi_y).labelHeight = qr_side_px dpi_x dpi_y + 20 ∧
      (layout_V110 dpi_x dpi_y).labelHeight =
        qr_side_px dpi_x dpi_y + ⌊(0.4 : ℚ) * CM_TO_IN * (dpi_y : ℚ)⌋ ∧
      qr_side_px 300 300 = 295 ∧ label_width_px 300 = 472 := by
  intro dpi_x dpi_y
  obtain ⟨hq1, hq2⟩ := floor_round_bounds ((2.5 : ℚ) * CM_TO_IN * ((min dpi_x dpi_y : ℕ) : ℚ))
  obtain ⟨hw1, hw2⟩ := floor_round_bounds ((4 : ℚ) * CM_TO_IN * (dpi_x : ℚ))
  refine ⟨hq1, hq2, hw1, hw2, rfl, rfl, ?_, ?_⟩
  · unfold qr_side_px CM_TO_IN
    norm_num [Int.floor_eq_iff]
  · unfold label_width_px CM_TO_IN
    norm_num [Int.floor_eq_iff]

/-- C3 (confirmed): every successful composition produces exactly the
literal payload template with the trimmed case number and the resolved
code substituted verbatim, and the payload is deterministic: any two
successful compositions with the same case number and selection yield
the identical payload string. -/
theorem C3_payload_exact_template :
    ∀ (catalog : List Entry) (u : Usage) (f d p : String) (u' : Usage),
      generate_qr catalog u f d = some (p, u') →
      (∃ code, get_kdl_code catalog (pyStrip d) = some code ∧
        p = "\x7bsys:GUN_CID,cid:" ++ pyStrip f ++ ",formid:" ++ code ++ "\x7d") ∧
      ∀ (u₂ : Usage) (p₂ : String) (u₂' : Usage),
        generate_qr catalog u₂ f d = some (p₂, u₂') → p₂ = p := by
  intro catalog u f d p u' h
  obtain ⟨code, hg, hp, _⟩ := generate_qr_some_inv h
  refine ⟨⟨code, hg, hp⟩, ?_⟩
  intro u₂ p₂ u₂' h₂
  obtain ⟨code₂, hg₂, hp₂, _⟩ := generate_qr_some_inv h₂
  rw [hg] at hg₂
  injection hg₂ with hc
  rw [hp₂, ← hc, hp]

theorem C3_witness :
    generate_qr FALLBACK_KDL_DATA [] "123" "Asthma bronchiale" =
      some ("\x7bsys:GUN_CID,cid:123,formid:J45\x7d", [("J45", 1)]) ∧
    ("\x7bsys:GUN_CID,cid:123,formid:J45\x7d" : String) =
      "\x7bsys:GUN_CID,cid:123,formid:J45\x7d" :=
  ⟨by decide,
    (C3_payload_exact_template FALLBACK_KDL_DATA [] "123" "Asthma bronchiale"
        "\x7bsys:GUN_CID,cid:123,formid:J45\x7d" [("J45", 1)] (by decide)).2
      [("J45", 5)] "\x7bsys:GUN_CID,cid:123,formid:J45\x7d" [("J45", 6)] (by decide)⟩

/-- C4, counterexample: two successful compositions of C34 starting from
usage `A01 ↦ 1` leave C34 with the unique maximum count 2, yet the
subsequent dropdown does not place the C34 display first — the favorites
are emitted in catalog order, so the A01 display comes first. -/
theorem C4_counterexample :
    generate_qr FALLBACK_KDL_DATA [("A01", 1)] "123"
        "Bösartige Neubildung: Bronchien und Lunge" =
      some ("\x7bsys:GUN_CID,cid:123,formid:C34\x7d", [("A01", 1), ("C34", 1)]) ∧
    generate_qr FALLBACK_KDL_DATA [("A01", 1), ("C34", 1)] "123"
        "Bösartige Neubildung: Bronchien und Lunge" =
      some ("\x7bsys:GUN_CID,cid:123,formid:C34\x7d", [("A01", 1), ("C34", 2)]) ∧
    (∀ e ∈ FALLBACK_KDL_DATA, e.code ≠ "C34" →
      usageGet [("A01", 1), ("C34", 2)] e.code < usageGet [("A01", 1), ("C34", 2)] "C34") ∧
    (update_dropdown FALLBACK_KDL_DATA [("A01", 1), ("C34", 2)]).head? ≠
      some "Bösartige Neubildung: Bronchien und Lunge" := by
  refine ⟨by decide, by decide, by decide, by decide⟩

/-- C4, amended: every successful composition increments the resolved
code's counter by exactly 1 and leaves every other counter unchanged
(the returned mapping is the one persisted), hence two successful
compositions with the same selection increment that code's counter by
exactly 2; after the two C34 compositions of the counterexample the C34
display does appear in the favorites portion, before the separator, but
second rather than first (favorites are listed in catalog order). -/
theorem C4_usage_increment :
    (∀ (catalog : List Entry) (u : Usage) (f d p : String) (u' : Usage) (code : String),
      get_kdl_code catalog (pyStrip d) = some code →
      generate_qr catalog u f d = some (p, u') →
      usageGet u' code = usageGet u code + 1 ∧
      ∀ c, c ≠ code → usageGet u' c = usageGet u c) ∧
    (∀ (catalog : List Entry) (u : Usage) (f d p₁ : String) (u₁ : Usage) (p₂ : String)
        (u₂ : Usage) (code : String),
      get_kdl_code catalog (pyStrip d) = some code →
      generate_qr catalog u f d = some (p₁, u₁) →
      generate_qr catalog u₁ f d = some (p₂, u₂) →
      usageGet u₂ code = usageGet u code + 2) ∧
    (update_dropdown FALLBACK_KDL_DATA [("A01", 1), ("C34", 2)]).take 3 =
      ["Cholera durch Vibrio cholerae 01, Biovar cholerae",
       "Bösartige Neubildung: Bronchien und Lunge", "---"] := by
  have single : ∀ (catalog : List Entry) (u : Usage) (f d p : String) (u' : Usage) (code : String),
      get_kdl_code catalog (pyStrip d) = some code →
      generate_qr catalog u f d = some (p, u') →
      usageGet u' code = usageGet u code + 1 ∧
      ∀ c, c ≠ code → usageGet u' c = usageGet u c := by
    intro catalog u f d p u' code hcode h
    obtain ⟨code', hg, _, hu⟩ := generate_qr_some_inv h
    rw [hcode] at hg
    injection hg with hc
    subst hc
    subst hu
    exact ⟨usageGet_usageSet_self u code _,
      fun c hc => usageGet_usageSet_ne u code c _ hc⟩
  refine ⟨single, ?_, by decide⟩
  intro catalog u f d p₁ u₁ p₂ u₂ code hcode h1 h2
  obtain ⟨ha1, _⟩ := single catalog u f d p₁ u₁ code hcode h1
  obtain ⟨ha2, _⟩ := single catalog u₁ f d p₂ u₂ code hcode h2
  omega

theorem C4_witness :
    get_kdl_code FALLBACK_KDL_DATA (pyStrip "Bösartige Neubildung: Bronchien und Lunge") =
      some "C34" ∧
    usageGet [("A01", 1), ("C34", 2)] "C34" = usageGet [("A01", 1)] "C34" + 2 :=
  ⟨by decide,
    C4_usage_increment.2.1 FALLBACK_KDL_DATA [("A01", 1)] "123"
      "Bösartige Neubildung: Bronchien und Lunge"
      "\x7bsys:GUN_CID,cid:123,formid:C34\x7d" [("A01", 1), ("C34", 1)]
      "\x7bsys:GUN_CID,cid:123,formid:C34\x7d" [("A01", 1), ("C34", 2)] "C34"
      (by decide) (by decide) (by decide)⟩

/-- C5 (confirmed): if the trimmed case number is empty, or the trimmed
selection resolves to no catalog entry, or the selection is the
separator sentinel, `generate_qr` aborts with no payload and an
unchanged and unpersisted usage mapping (result `none`). -/
theorem C5_validation_aborts :
    ∀ (catalog : List Entry) (u : Usage) (f d : String),
      pyStrip f = "" ∨ get_kdl_code catalog (pyStrip d) = none ∨ pyStrip d = "---" →
      generate_qr catalog u f d = none := by
  intro catalog u f d h
  unfold generate_qr
  split_ifs with h1
  · rfl
  · push_neg at h1
    rcases h with hf | hg | hs
    · cases hgg : get_kdl_code catalog (pyStrip d) with
      | none => rfl
      | some code =>
        show (if pyStrip f = "" ∨ code = "" then none
              else some (qr_payload (pyStrip f) code,
                usageSet u code (usageGet u code + 1))) = none
        rw [if_pos (Or.inl hf)]
    · rw [hg]
    · exact absurd hs h1.2

theorem C5_witness :
    pyStrip " " = "" ∧
    generate_qr FALLBACK_KDL_DATA [("A01", 1)] " " "Asthma bronchiale" = none :=
  ⟨by decide,
    C5_validation_aborts FALLBACK_KDL_DATA [("A01", 1)] " " "Asthma bronchiale"
      (Or.inl (by decide))⟩

/-- C6, counterexample: the claim quantifies over every catalog, but the
source never guards against a real display equal to the sentinel: with
two catalog entries whose display is `"---"` and empty usage, the
dropdown is `["---", "---"]` — the sentinel appears although no favorite
exists, and in two adjacent positions. -/
theorem C6_counterexample :
    update_dropdown [⟨"X1", "---"⟩, ⟨"X2", "---"⟩] [] = ["---", "---"] ∧
    favorite_displays [⟨"X1", "---"⟩, ⟨"X2", "---"⟩] [] = [] ∧
    ∃ l₁ l₂, update_dropdown [⟨"X1", "---"⟩, ⟨"X2", "---"⟩] [] =
      l₁ ++ "---" :: "---" :: l₂ :=
  ⟨by decide, by decide, [], [], by decide⟩

/-- C6, amended: for every catalog whose display strings do not contain
the sentinel `"---"` (the collision the spec leaves open), and every
usage mapping, the sentinel occurs in the dropdown only if at least one
favorite exists, and never in two adjacent positions. -/
theorem C6_sentinel_guarded :
    ∀ (catalog : List Entry) (usage : Usage), "---" ∉ catalog.map Entry.display →
      ("---" ∈ update_dropdown catalog usage → favorite_displays catalog usage ≠ []) ∧
      ¬ ∃ l₁ l₂, update_dropdown catalog usage = l₁ ++ "---" :: "---" :: l₂ := by
  intro catalog usage hs
  constructor
  · intro hmem hnil
    have hud : update_dropdown catalog usage = remaining_displays catalog usage := by
      unfold update_dropdown
      rw [hnil]
      simp
    rw [hud] at hmem
    exact hs (mem_remaining_displays.mp hmem).1
  · rintro ⟨l₁, l₂, heq⟩
    have h1 := count_sep_update_dropdown catalog usage hs
    rw [heq] at h1
    simp [List.count_append, List.count_cons] at h1
    omega

theorem C6_witness :
    ("---" ∉ FALLBACK_KDL_DATA.map Entry.display) ∧
    (("---" ∈ update_dropdown FALLBACK_KDL_DATA [("C34", 3)] →
       favorite_displays FALLBACK_KDL_DATA [("C34", 3)] ≠ []) ∧
     ¬ ∃ l₁ l₂, update_dropdown FALLBACK_KDL_DATA [("C34", 3)] =
       l₁ ++ "---" :: "---" :: l₂) :=
  ⟨by decide, C6_sentinel_guarded FALLBACK_KDL_DATA [("C34", 3)] (by decide)⟩

/-- C7 (confirmed): for every catalog and usage mapping the remainder
portion of the dropdown is sorted alphabetically (code-point order, as
Python sorts), contains a display exactly when it is a catalog display
not among the favorite displays, is a permutation of the catalog entries
outside the favorites, and is exactly what follows the favorites block
in the dropdown (the whole output when there are no favorites). -/
theorem C7_remainder_alphabetical :
    ∀ (catalog : List Entry) (usage : Usage) (x : String),
      List.Sorted (· ≤ ·) (remaining_displays catalog usage) ∧
      (x ∈ remaining_displays catalog usage ↔
        x ∈ catalog.map Entry.display ∧ x ∉ favorite_displays catalog usage) ∧
      List.Perm (remaining_displays catalog usage)
        ((catalog.filter
          (fun e => decide (e.display ∉ favorite_displays catalog usage))).map Entry.display) ∧
      update_dropdown catalog usage =
        (if (favorite_displays catalog usage).isEmpty then []
         else favorite_displays catalog usage ++ ["---"]) ++ remaining_displays catalog usage :=
  fun catalog usage x =>
    ⟨sorted_remaining_displays catalog usage, @mem_remaining_displays catalog usage x,
      perm_remaining_displays catalog usage, rfl⟩

theorem C7_witness :
    "Akute Appendizitis" ∈ remaining_displays FALLBACK_KDL_DATA [("C34", 3)] ∧
    "Akute Appendizitis" ∉ favorite_displays FALLBACK_KDL_DATA [("C34", 3)] :=
  ⟨by decide,
    ((C7_remainder_alphabetical FALLBACK_KDL_DATA [("C34", 3)]
        "Akute Appendizitis").2.1.mp (by decide)).2⟩

/-- Candidate with a missing file (used by the C8 counterexample). -/
def cand_missing : Candidate := ⟨false, none⟩

/-- Candidate with an existing file that parses to the JSON number 5,
which fails the shape check (used by the C8 counterexample). -/
def cand_bad : Candidate := ⟨true, some (Json.num 5)⟩

/-- A JSON list with one object carrying `code` and `display` fields. -/
def good_json : Json :=
  Json.arr [Json.obj [("code", Json.str "Z99"), ("display", Json.str "Testeintrag")]]

/-- Candidate with an existing file parsing to `good_json` (C8). -/
def cand_good : Candidate := ⟨true, some good_json⟩

/-- C8, counterexample: the first *existing* candidate is the invalid
`cand_bad`, yet the loader does not fall back — it continues probing and
returns the later candidate's data, so "first existing file wins, else
fallback" is not what the code does. -/
theorem C8_counterexample :
    (candidate_paths false cand_missing cand_bad cand_good).find?
      (fun c => c.pathExists) = some cand_bad ∧
    try_candidate cand_bad = none ∧
    load_kdl_data (candidate_paths false cand_missing cand_bad cand_good) =
      Sum.inl good_json ∧
    (Sum.inl good_json : Json ⊕ List Entry) ≠ Sum.inr FALLBACK_KDL_DATA :=
  ⟨rfl, rfl, rfl, fun h => Sum.noConfusion h⟩

/-- C8, amended: the probe order is executable directory (only when
frozen), working directory, source directory, and the loader returns the
data of the *first candidate that exists, reads, parses and passes the
shape check* (`findSome?`), falling back to the built-in list of exactly
ten entries only when every candidate is rejected; the accepted shape is
`data is a list and every element contains "code" and "display"` under
Python's `in` (key lookup for objects, substring for strings), not
"list of objects with string fields". -/
theorem C8_loader_first_valid :
    ∀ (frozen : Bool) (exe_cand cwd_cand src_cand : Candidate),
      candidate_paths true exe_cand cwd_cand src_cand = [exe_cand, cwd_cand, src_cand] ∧
      candidate_paths false exe_cand cwd_cand src_cand = [cwd_cand, src_cand] ∧
      load_kdl_data (candidate_paths frozen exe_cand cwd_cand src_cand) =
        (match (candidate_paths frozen exe_cand cwd_cand src_cand).findSome? try_candidate with
         | some data => Sum.inl data
         | none => Sum.inr FALLBACK_KDL_DATA) ∧
      FALLBACK_KDL_DATA.length = 10 := by
  intro frozen exe_cand cwd_cand src_cand
  refine ⟨rfl, rfl, ?_, rfl⟩
  unfold load_kdl_data
  rw [load_kdl_data_from_eq_findSome]

/-- C9, counterexample: after a reset the mapping is empty, but with a
catalog entry whose display is the sentinel the subsequent dropdown is
`["---"]`, which does contain the sentinel — the claim's "no separator
sentinel in the output" fails for such catalogs. -/
theorem C9_counterexample :
    reset_favorites [("X1", 2)] = [] ∧
    update_dropdown [⟨"X1", "---"⟩] (reset_favorites [("X1", 2)]) = ["---"] ∧
    "---" ∈ update_dropdown [⟨"X1", "---"⟩] (reset_favorites [("X1", 2)]) :=
  ⟨rfl, by decide, by decide⟩

/-- C9, amended: the reset action yields the empty mapping (which is what
gets persisted), and for every catalog and every usage mapping that is
zero on all catalog codes (in particular the empty one) the dropdown is
exactly the catalog's display strings sorted alphabetically; no
separator is appended, and the output contains no sentinel provided the
sentinel is not itself a catalog display. -/
theorem C9_reset_alphabetical :
    ∀ (catalog : List Entry) (u₀ u : Usage),
      (∀ e ∈ catalog, usageGet u e.code = 0) →
      reset_favorites u₀ = [] ∧
      List.Sorted (· ≤ ·) (update_dropdown catalog u) ∧
      List.Perm (update_dropdown catalog u) (catalog.map Entry.display) ∧
      ("---" ∉ catalog.map Entry.display → "---" ∉ update_dropdown catalog u) := by
  intro catalog u₀ u h
  have hud := update_dropdown_all_zero h
  refine ⟨rfl, ?_, ?_, ?_⟩
  · rw [hud]
    have h1 := List.sorted_insertionSort displayLe catalog
    exact List.Pairwise.map _ (fun a b hab => hab) h1
  · rw [hud]
    exact (List.perm_insertionSort displayLe catalog).map Entry.display
  · intro hs hmem
    rw [hud] at hmem
    obtain ⟨e, he, heq⟩ := List.mem_map.mp hmem
    exact hs (List.mem_map.mpr ⟨e, (List.mem_insertionSort _).mp he, heq⟩)

theorem C9_witness :
    (∀ e ∈ FALLBACK_KDL_DATA, usageGet [] e.code = 0) ∧
    (reset_favorites [("A01", 5)] = [] ∧
     List.Sorted (· ≤ ·) (update_dropdown FALLBACK_KDL_DATA []) ∧
     List.Perm (update_dropdown FALLBACK_KDL_DATA [])
       (FALLBACK_KDL_DATA.map Entry.display) ∧
     ("---" ∉ FALLBACK_KDL_DATA.map Entry.display →
       "---" ∉ update_dropdown FALLBACK_KDL_DATA [])) :=
  ⟨by decide, C9_reset_alphabetical FALLBACK_KDL_DATA [("A01", 5)] [] (by decide)⟩

/-- C10, counterexample: at 300 DPI the two versions compute different
layouts: V110's label height is 342 (`295 + ⌊0.4 cm⌋ = 295 + 47`) while
V200's is 315 (`295 + 20`), and the second text line sits at 82 versus
20 pixels. -/
theorem C10_counterexample :
    layout_V110 300 300 ≠ layout_V200 300 300 ∧
    (layout_V110 300 300).labelHeight = 342 ∧
    (layout_V200 300 300).labelHeight = 315 ∧
    (layout_V110 300 300).line2Y = 82 ∧
    (layout_V200 300 300).line2Y = 20 := by
  have hq : qr_side_px 300 300 = 295 := by
    unfold qr_side_px CM_TO_IN
    norm_num [Int.floor_eq_iff]
  have hm : (⌊(0.4 : ℚ) * CM_TO_IN * ((300 : ℕ) : ℚ)⌋ : ℤ) = 47 := by
    unfold CM_TO_IN
    norm_num [Int.floor_eq_iff]
  have hl : (⌊(0.7 : ℚ) * CM_TO_IN * ((300 : ℕ) : ℚ)⌋ : ℤ) = 82 := by
    unfold CM_TO_IN
    norm_num [Int.floor_eq_iff]
  have h110 : (layout_V110 300 300).labelHeight = 342 := by
    show qr_side_px 300 300 + ⌊(0.4 : ℚ) * CM_TO_IN * ((300 : ℕ) : ℚ)⌋ = 342
    rw [hq, hm]
    decide
  have h200 : (layout_V200 300 300).labelHeight = 315 := by
    show qr_side_px 300 300 + 20 = 315
    rw [hq]
    decide
  refine ⟨?_, h110, h200, hl, rfl⟩
  intro heq
  have hc := congrArg LabelLayout.labelHeight heq
  rw [h110, h200] at hc
  exact absurd hc (by decide)

/-- C10, amended: the two versions agree for every DPI pair on the QR
side, the label width, the first text line, and the timestamp anchor,
but the complete layouts are never equal: V110's bottom margin
(`⌊0.4 cm × dpiY⌋`) and second text line (`⌊0.7 cm × dpiY⌋`) cannot both
equal V200's fixed 20 px for any dpiY, since the former needs
`dpiY × 0.3937... ≥ 50` and the latter needs `dpiY × 0.3937... < 30`. -/
theorem C10_layout_divergence :
    ∀ dpi_x dpi_y : ℕ,
      (layout_V110 dpi_x dpi_y).qrSide = (layout_V200 dpi_x dpi_y).qrSide ∧
      (layout_V110 dpi_x dpi_y).labelWidth = (layout_V200 dpi_x dpi_y).labelWidth ∧
      (layout_V110 dpi_x dpi_y).line1Y = (layout_V200 dpi_x dpi_y).line1Y ∧
      (layout_V110 dpi_x dpi_y).dateX = (layout_V200 dpi_x dpi_y).dateX ∧
      (layout_V110 dpi_x dpi_y).dateY = (layout_V200 dpi_x dpi_y).dateY ∧
      layout_V110 dpi_x dpi_y ≠ layout_V200 dpi_x dpi_y := by
  intro dpi_x dpi_y
  refine ⟨rfl, rfl, rfl, rfl, rfl, ?_⟩
  intro heq
  have hh : (layout_V110 dpi_x dpi_y).labelHeight = (layout_V200 dpi_x dpi_y).labelHeight :=
    congrArg LabelLayout.labelHeight heq
  have hl : (layout_V110 dpi_x dpi_y).line2Y = (layout_V200 dpi_x dpi_y).line2Y :=
    congrArg LabelLayout.line2Y heq
  have hh2 : (⌊(0.4 : ℚ) * CM_TO_IN * (dpi_y : ℚ)⌋ : ℤ) = 20 := by
    have hh3 : qr_side_px dpi_x dpi_y + ⌊(0.4 : ℚ) * CM_TO_IN * (dpi_y : ℚ)⌋ =
        qr_side_px dpi_x dpi_y + 20 := hh
    omega
  have hl2 : (⌊(0.7 : ℚ) * CM_TO_IN * (dpi_y : ℚ)⌋ : ℤ) = 20 := hl
  have h1 := (Int.floor_eq_iff.mp hh2).1
  have h2 := (Int.floor_eq_iff.mp hl2).2
  simp only [CM_TO_IN] at h1 h2
  push_cast at h1 h2
  linarith
